import Mathlib

/-!
Shallow embedding of the synthetic e-commerce data pipeline
(`generate_ecommerce_data.py`, `ingest_data_to_sqlite.py`,
`analyze_ecommerce.py`).

Modelling conventions:
* Python's global `random` module and the seeded `Faker` instance are both
  deterministic streams derived from the run's seed; they are embedded as a
  single explicit pseudo-random state of type `Nat`, threaded through every
  generator (a linear congruential step stands in for the Mersenne twister —
  no claim depends on the distribution, only on determinism and ranges).
* Dates are day offsets from 2023-01-01 (`REGISTRATION_START = 0`,
  `DATA_END_DATE = 699` = 2024-11-30).
* Monetary values are rationals; `round2` is round-half-up to 2 decimals,
  matching Python's `round(x, 2)` on the non-tie-breaking values involved.
* Fallible operations (`random.choice` on an empty sequence, a pandas `.loc`
  lookup miss, Faker's `UniquenessException`, reversed date ranges) are
  embedded as `Except String`.
-/

namespace ECommerce

/-- One step of the deterministic pseudo-random stream (a standard LCG). -/
def rngNext (s : Nat) : Nat := (s * 1103515245 + 12345) % 2147483648

/-- `random.randint(lo, hi)`: a value in `[lo, hi]` (when `lo ≤ hi`), plus the
advanced stream. -/
def randNat (s lo hi : Nat) : Nat × Nat :=
  (lo + rngNext s % (hi + 1 - lo), rngNext s)

/-- `random.choice(xs)`: raises `IndexError` on an empty sequence. -/
def choose {α : Type} (s : Nat) (xs : List α) : Except String (α × Nat) :=
  match xs with
  | [] => .error "IndexError: empty sequence"
  | x :: rest =>
      .ok ((x :: rest).get ⟨rngNext s % (rest.length + 1),
            Nat.mod_lt _ (Nat.succ_pos _)⟩, rngNext s)

/-- `fake.date_between_dates(start, stop)`: a day in `[start, stop]`;
a reversed range is an error (as in the underlying library). -/
def date_between_dates (s start stop : Nat) : Except String (Nat × Nat) :=
  if start ≤ stop then .ok (randNat s start stop)
  else .error "ValueError: empty date range"

/-- A synthetic Faker text field: deterministic in the stream state. -/
def fakeText (tag : String) (s : Nat) : String × Nat :=
  (tag ++ toString (rngNext s % 100000), rngNext s)

/-- Round to 2 decimal places (Python `round(x, 2)` on the values at hand). -/
def round2 (q : ℚ) : ℚ := (⌊q * 100 + 1 / 2⌋ : ℚ) / 100

/-- `REGISTRATION_START = date(2023, 1, 1)`, as day offset 0. -/
def REGISTRATION_START : Nat := 0

/-- `DATA_END_DATE = date(2024, 11, 30)`, 699 days after 2023-01-01. -/
def DATA_END_DATE : Nat := 699

structure Customer where
  customer_id : Nat
  first_name : String
  last_name : String
  email : String
  phone : String
  address : String
  city : String
  state : String
  zip_code : String
  country : String
  registration_date : Nat
deriving Repr, DecidableEq

structure Product where
  product_id : Nat
  product_name : String
  category : String
  description : String
  price : ℚ
  stock_quantity : Nat
  supplier : String
  created_date : Nat
deriving Repr, DecidableEq

structure Order where
  order_id : Nat
  customer_id : Nat
  order_date : Nat
  total_amount : ℚ
  status : String
  payment_method : String
deriving Repr, DecidableEq

structure OrderItem where
  order_item_id : Nat
  order_id : Nat
  product_id : Nat
  quantity : Nat
  unit_price : ℚ
  subtotal : ℚ
deriving Repr, DecidableEq

structure Review where
  review_id : Nat
  product_id : Nat
  customer_id : Nat
  rating : Nat
  review_text : String
  review_date : Nat
deriving Repr, DecidableEq

/-- Retry budget of Faker's unique proxy before `UniquenessException`. -/
def UNIQUE_RETRIES : Nat := 1000

/-- A raw (non-unique) Faker email, drawn from a finite pool. -/
def fakeEmail (s : Nat) : String × Nat :=
  ("user" ++ toString (rngNext s % 100000) ++ "@example.com", rngNext s)

/-- `fake.unique.email()`: draws candidates until one is fresh; exhausting the
retry budget raises `UniquenessException` (the uniqueness source running out
is fatal, never silently deduplicated). -/
def uniqueEmail (used : List String) (s fuel : Nat) : Except String (String × Nat) :=
  match fuel with
  | 0 => .error "UniquenessException"
  | fuel + 1 =>
      if (fakeEmail s).1 ∈ used then uniqueEmail used (fakeEmail s).2 fuel
      else .ok (fakeEmail s)

/-- Loop body of `generate_customers`: one customer per `customer_id` from
`cid` up, threading the set of already-used emails through the Faker unique
proxy. -/
def generate_customers_go (cid n : Nat) (used : List String) (s : Nat) :
    Except String (List Customer × Nat) :=
  match n with
  | 0 => .ok ([], s)
  | n + 1 =>
    match date_between_dates s REGISTRATION_START DATA_END_DATE with
    | .error e => .error e
    | .ok (reg, s1) =>
      match uniqueEmail used (fakeText "last" (fakeText "first" s1).2).2
          UNIQUE_RETRIES with
      | .error e => .error e
      | .ok (em, s4) =>
        match generate_customers_go (cid + 1) n (em :: used)
            (fakeText "country" (fakeText "zip" (fakeText "state"
              (fakeText "city" (fakeText "addr"
                (fakeText "phone" s4).2).2).2).2).2).2 with
        | .error e => .error e
        | .ok (rest, s11) =>
            .ok ({ customer_id := cid,
                   first_name := (fakeText "first" s1).1,
                   last_name := (fakeText "last" (fakeText "first" s1).2).1,
                   email := em,
                   phone := (fakeText "phone" s4).1,
                   address := (fakeText "addr" (fakeText "phone" s4).2).1,
                   city := (fakeText "city" (fakeText "addr"
                     (fakeText "phone" s4).2).2).1,
                   state := (fakeText "state" (fakeText "city"
                     (fakeText "addr" (fakeText "phone" s4).2).2).2).1,
                   zip_code := (fakeText "zip" (fakeText "state"
                     (fakeText "city" (fakeText "addr"
                       (fakeText "phone" s4).2).2).2).2).1,
                   country := (fakeText "country" (fakeText "zip"
                     (fakeText "state" (fakeText "city" (fakeText "addr"
                       (fakeText "phone" s4).2).2).2).2).2).1,
                   registration_date := reg } :: rest, s11)

/-- `generate_customers(fake, count)`. -/
def generate_customers (s count : Nat) : Except String (List Customer × Nat) :=
  generate_customers_go 1 count [] s

/-- `round(random.uniform(5, 500), 2)`: a 2-decimal price in `[5, 500]`. -/
def randPrice (s : Nat) : ℚ × Nat :=
  (((randNat s 500 50000).1 : ℚ) / 100, (randNat s 500 50000).2)

/-- `categories` list of `generate_products`. -/
def categories : List String :=
  ["Electronics", "Clothing", "Home & Garden", "Sports", "Books"]

/-- Loop body of `generate_products`. -/
def generate_products_go (pid n : Nat) (s : Nat) :
    Except String (List Product × Nat) :=
  match n with
  | 0 => .ok ([], s)
  | n + 1 =>
    let (pr, s1) := randPrice s
    let (nm, s2) := fakeText "phrase" s1
    match choose s2 categories with
    | .error e => .error e
    | .ok (cat, s3) =>
      let (de, s4) := fakeText "descr" s3
      let (stock, s5) := randNat s4 0 1000
      let (su, s6) := fakeText "company" s5
      match date_between_dates s6 REGISTRATION_START DATA_END_DATE with
      | .error e => .error e
      | .ok (cd, s7) =>
        match generate_products_go (pid + 1) n s7 with
        | .error e => .error e
        | .ok (rest, s8) =>
            .ok ({ product_id := pid, product_name := nm, category := cat,
                   description := de, price := pr, stock_quantity := stock,
                   supplier := su, created_date := cd } :: rest, s8)

/-- `generate_products(fake, count)`. -/
def generate_products (s count : Nat) : Except String (List Product × Nat) :=
  generate_products_go 1 count s

/-- `statuses` list of `generate_orders`. -/
def statuses : List String :=
  ["Pending", "Processing", "Shipped", "Delivered", "Cancelled"]

/-- `payment_methods` list of `generate_orders`. -/
def payment_methods : List String :=
  ["Credit Card", "Debit Card", "PayPal", "Cash on Delivery"]

/-- Loop body of `generate_orders`: ids `oid, oid+1, …`; each order samples a
customer, draws `order_date` from `[registration_date, DATA_END_DATE]`, and
starts with `total_amount = 0` (finalised later by `generate_order_items`). -/
def generate_orders_go (customers : List Customer) (oid n : Nat) (s : Nat) :
    Except String (List Order × Nat) :=
  match n with
  | 0 => .ok ([], s)
  | n + 1 =>
    match choose s customers with
    | .error e => .error e
    | .ok (c, s1) =>
      match date_between_dates s1 c.registration_date DATA_END_DATE with
      | .error e => .error e
      | .ok (d, s2) =>
        match choose s2 statuses with
        | .error e => .error e
        | .ok (st, s3) =>
          match choose s3 payment_methods with
          | .error e => .error e
          | .ok (pm, s4) =>
            match generate_orders_go customers (oid + 1) n s4 with
            | .error e => .error e
            | .ok (rest, s5) =>
                .ok ({ order_id := oid, customer_id := c.customer_id,
                       order_date := d, total_amount := 0, status := st,
                       payment_method := pm } :: rest, s5)

/-- `generate_orders(fake, customers_df, count)`. -/
def generate_orders (s : Nat) (customers : List Customer) (count : Nat) :
    Except String (List Order × Nat) :=
  generate_orders_go customers 1 count s

/-- `build_item(record_id, order_id)` inside `generate_order_items`: samples a
product id from `products_df["product_id"].tolist()`, looks its price up via
`products.loc`, draws a quantity in `[1, 5]`, and accumulates the rounded
subtotal into the running `order_totals` map (embedded as a total function;
the Python dict is only ever read and written at existing order ids). -/
def build_item (products : List Product) (record_id order_id : Nat)
    (totals : Nat → ℚ) (s : Nat) :
    Except String (OrderItem × (Nat → ℚ) × Nat) :=
  match choose s (products.map (·.product_id)) with
  | .error e => .error e
  | .ok (pid, s1) =>
    match products.find? (fun p => p.product_id == pid) with
    | none => .error "KeyError: product_id"
    | some p =>
        .ok ({ order_item_id := record_id, order_id := order_id,
               product_id := pid, quantity := (randNat s1 1 5).1,
               unit_price := p.price,
               subtotal := round2 (((randNat s1 1 5).1 : ℚ) * p.price) },
             (fun k => if k = order_id
                       then totals k + round2 (((randNat s1 1 5).1 : ℚ) * p.price)
                       else totals k),
             (randNat s1 1 5).2)

/-- The first loop of `generate_order_items`: one seed item per order, in the
row order of `orders_df` (ascending `order_id` for generated orders). -/
def seed_items (products : List Product) (orders : List Order)
    (record_id : Nat) (totals : Nat → ℚ) (s : Nat) :
    Except String (List OrderItem × (Nat → ℚ) × Nat × Nat) :=
  match orders with
  | [] => .ok ([], totals, record_id, s)
  | o :: rest =>
    match build_item products record_id o.order_id totals s with
    | .error e => .error e
    | .ok (it, totals1, s1) =>
      match seed_items products rest (record_id + 1) totals1 s1 with
      | .error e => .error e
      | .ok (its, totals2, rid, s2) => .ok (it :: its, totals2, rid, s2)

/-- The `while record_id <= count` loop of `generate_order_items`: `n` more
items, each for a uniformly sampled order id. -/
def fill_items (products : List Product) (order_ids : List Nat)
    (n record_id : Nat) (totals : Nat → ℚ) (s : Nat) :
    Except String (List OrderItem × (Nat → ℚ) × Nat × Nat) :=
  match n with
  | 0 => .ok ([], totals, record_id, s)
  | n + 1 =>
    match choose s order_ids with
    | .error e => .error e
    | .ok (oid, s1) =>
      match build_item products record_id oid totals s1 with
      | .error e => .error e
      | .ok (it, totals1, s2) =>
        match fill_items products order_ids n (record_id + 1) totals1 s2 with
        | .error e => .error e
        | .ok (its, totals2, rid, s3) => .ok (it :: its, totals2, rid, s3)

/-- `generate_order_items(fake, orders_df, products_df, count)`.

Returns the item list together with the updated orders: the Python function
mutates `orders_df` in place via
`orders_df["total_amount"] = orders_df["order_id"].map(order_totals).round(2)`
as its last statement, after both loops have finished; here the updated
DataFrame is the second component of the result. -/
def generate_order_items (s : Nat) (orders : List Order)
    (products : List Product) (count : Nat) :
    Except String (List OrderItem × List Order × Nat) :=
  match seed_items products orders 1 (fun _ => 0) s with
  | .error e => .error e
  | .ok (seedIts, totals1, rid, s1) =>
    match fill_items products (orders.map (·.order_id))
        (count - orders.length) rid totals1 s1 with
    | .error e => .error e
    | .ok (fillIts, totals2, _, s2) =>
        .ok (seedIts ++ fillIts,
             orders.map (fun o =>
               { o with total_amount := round2 (totals2 o.order_id) }),
             s2)

/-- Fixed `random_state=42` of `order_items_df.sample` in `generate_reviews`. -/
def SAMPLE_SEED : Nat := 42

/-- `order_items_df.sample(n, replace=True, random_state=SAMPLE_SEED)`:
`n` draws with replacement from a fixed-seed stream; sampling a positive
number of rows from an empty frame is an error. -/
def sample_with_replacement (items : List OrderItem) (n s : Nat) :
    Except String (List OrderItem × Nat) :=
  match n with
  | 0 => .ok ([], s)
  | n + 1 =>
    match choose s items with
    | .error e => .error e
    | .ok (it, s1) =>
      match sample_with_replacement items n s1 with
      | .error e => .error e
      | .ok (rest, s2) => .ok (it :: rest, s2)

/-- Loop body of `generate_reviews`: for each sampled item, look up its order
in `order_lookup` and emit a review whose `product_id` comes from the item,
whose `customer_id` comes from the order, and whose `review_date` is drawn
from `[order_date, DATA_END_DATE]`. -/
def reviews_go (orders : List Order) (sampled : List OrderItem)
    (rid : Nat) (s : Nat) : Except String (List Review × Nat) :=
  match sampled with
  | [] => .ok ([], s)
  | it :: rest =>
    match orders.find? (fun o => o.order_id == it.order_id) with
    | none => .error "KeyError: order_id"
    | some o =>
      match date_between_dates s o.order_date DATA_END_DATE with
      | .error e => .error e
      | .ok (rd, s1) =>
        match reviews_go orders rest (rid + 1) (fakeText "review" (randNat s1 1 5).2).2 with
        | .error e => .error e
        | .ok (rvs, s3) =>
            .ok ({ review_id := rid, product_id := it.product_id,
                   customer_id := o.customer_id,
                   rating := (randNat s1 1 5).1,
                   review_text := (fakeText "review" (randNat s1 1 5).2).1,
                   review_date := rd } :: rvs, s3)

/-- `generate_reviews(fake, order_items_df, orders_df, count)`. -/
def generate_reviews (s : Nat) (order_items : List OrderItem)
    (orders : List Order) (count : Nat) :
    Except String (List Review × Nat) :=
  match sample_with_replacement order_items count SAMPLE_SEED with
  | .error e => .error e
  | .ok (sampled, _) => reviews_go orders sampled 1 s

/-- The generation pipeline of `main`: seed the random sources, then run the
five generators in dependency order, wrapping any failure as
`Data generation failed`. The orders handed to `generate_reviews` (and
returned) are the ones already updated in place by `generate_order_items`. -/
def generateAll (seed nc np no ni nr : Nat) :
    Except String
      (List Customer × List Product × List Order × List OrderItem ×
        List Review) :=
  match generate_customers seed nc with
  | .error e => .error ("Data generation failed: " ++ e)
  | .ok (cs, s1) =>
    match generate_products s1 np with
    | .error e => .error ("Data generation failed: " ++ e)
    | .ok (ps, s2) =>
      match generate_orders s2 cs no with
      | .error e => .error ("Data generation failed: " ++ e)
      | .ok (os, s3) =>
        match generate_order_items s3 os ps ni with
        | .error e => .error ("Data generation failed: " ++ e)
        | .ok (its, os2, s4) =>
          match generate_reviews s4 its os2 nr with
          | .error e => .error ("Data generation failed: " ++ e)
          | .ok (rvs, _) => .ok (cs, ps, os2, its, rvs)

/-! Ingestion (`ingest_data_to_sqlite.py`): SQLite state and `insert_data`. -/

/-- The five tables of `ecommerce.db` after `create_schema`. -/
structure Database where
  customers : List Customer
  products : List Product
  orders : List Order
  order_items : List OrderItem
  reviews : List Review
deriving Repr, DecidableEq

/-- The freshly created empty schema. -/
def emptyDatabase : Database :=
  { customers := [], products := [], orders := [], order_items := [],
    reviews := [] }

/-- Constraints on a `customers` row: `customer_id INTEGER PRIMARY KEY`,
`email TEXT UNIQUE`. -/
def customerRowOk (tbl : List Customer) (c : Customer) : Bool :=
  tbl.all (fun x => x.customer_id != c.customer_id && x.email != c.email)

/-- Constraints on a `products` row: `product_id INTEGER PRIMARY KEY`. -/
def productRowOk (tbl : List Product) (p : Product) : Bool :=
  tbl.all (fun x => x.product_id != p.product_id)

/-- Constraints on an `orders` row: primary key plus the
`customer_id` foreign key (checked against rows visible in the
transaction, `PRAGMA foreign_keys = ON`). -/
def orderRowOk (customers : List Customer) (tbl : List Order)
    (o : Order) : Bool :=
  tbl.all (fun x => x.order_id != o.order_id) &&
    customers.any (fun c => c.customer_id == o.customer_id)

/-- Constraints on an `order_items` row: primary key plus the `order_id` and
`product_id` foreign keys. -/
def orderItemRowOk (orders : List Order) (products : List Product)
    (tbl : List OrderItem) (it : OrderItem) : Bool :=
  tbl.all (fun x => x.order_item_id != it.order_item_id) &&
    orders.any (fun o => o.order_id == it.order_id) &&
    products.any (fun p => p.product_id == it.product_id)

/-- Constraints on a `reviews` row: primary key, the two foreign keys, and
`CHECK(rating BETWEEN 1 AND 5)`. -/
def reviewRowOk (products : List Product) (customers : List Customer)
    (tbl : List Review) (rv : Review) : Bool :=
  tbl.all (fun x => x.review_id != rv.review_id) &&
    products.any (fun p => p.product_id == rv.product_id) &&
    customers.any (fun c => c.customer_id == rv.customer_id) &&
    (1 ≤ rv.rating && rv.rating ≤ 5)

/-- `cursor.executemany`: insert rows one at a time into the transaction's
view of a table, stopping at the first constraint violation. -/
def insertRows {α : Type} (check : List α → α → Bool) (tbl rows : List α) :
    Except String (List α) :=
  match rows with
  | [] => .ok tbl
  | r :: rest =>
      if check tbl r then insertRows check (tbl ++ [r]) rest
      else .error "IntegrityError: constraint failed"

/-- The body of the `try` block of `insert_data`: the `BEGIN` … `commit`
transaction inserting all five collections in dependency order, working on
the transaction's view of the tables; any `sqlite3.DatabaseError` aborts
it with a wrapped `Insertion failed` message. -/
def insert_data_tx (db : Database) (d : Database) : Except String Database :=
  match insertRows customerRowOk db.customers d.customers with
  | .error e => .error ("Insertion failed: " ++ e)
  | .ok cs =>
    match insertRows productRowOk db.products d.products with
    | .error e => .error ("Insertion failed: " ++ e)
    | .ok ps =>
      match insertRows (orderRowOk cs) db.orders d.orders with
      | .error e => .error ("Insertion failed: " ++ e)
      | .ok os =>
        match insertRows (orderItemRowOk os ps) db.order_items d.order_items with
        | .error e => .error ("Insertion failed: " ++ e)
        | .ok its =>
          match insertRows (reviewRowOk ps cs) db.reviews d.reviews with
          | .error e => .error ("Insertion failed: " ++ e)
          | .ok rvs =>
              .ok { customers := cs, products := ps, orders := os,
                    order_items := its, reviews := rvs }

/-- `insert_data(connection, dataframes)`: on success the transaction is
committed; on failure the `except` handler rolls the connection back, so the
committed state stays `db`, and the wrapped error is re-raised. The result
pairs the raised outcome with the committed database state after the call. -/
def insert_data (db : Database) (d : Database) :
    Except String Unit × Database :=
  match insert_data_tx db d with
  | .error e => (.error e, db)
  | .ok db2 => (.ok (), db2)

/-! Analysis (`analyze_ecommerce.py`): the query runner of `main`. -/

/-- The database connection as seen by `pd.read_sql_query`: SQL text in, row
count out, or a `sqlite3.DatabaseError`. -/
def Conn : Type := String → Except String Nat

/-- `execute_and_report(connection, name, sql, description)`: runs the query
and returns `(name, row_count)`; a database error is wrapped as
`RuntimeError(f"Query ... failed: ...")` (quotes around the name omitted). -/
def execute_and_report (conn : Conn) (name sql : String) :
    Except String (String × Nat) :=
  match conn sql with
  | .error e => .error ("Query " ++ name ++ " failed: " ++ e)
  | .ok rows => .ok (name, rows)

/-- The fixed battery of `main` in `analyze_ecommerce.py`, in `query_functions`
order (SQL abbreviated to the tables it reads). -/
def query_battery : List (String × String) :=
  [("top_customers_by_revenue",
    "SELECT ... FROM customers JOIN orders JOIN order_items LIMIT 20"),
   ("product_performance_with_reviews",
    "SELECT ... FROM products LEFT JOIN order_items LEFT JOIN reviews"),
   ("complete_order_details",
    "SELECT ... FROM orders JOIN customers JOIN order_items JOIN products LIMIT 100"),
   ("category_sales_summary",
    "SELECT ... FROM products JOIN order_items GROUP BY category"),
   ("customer_engagement_metrics",
    "SELECT ... FROM customers JOIN orders JOIN order_items LEFT JOIN reviews LIMIT 50")]

/-- The `for runner in query_functions` loop of `main`, with its enclosing
`try` block: results accumulate until the first failing query, whose error is
wrapped as `Analysis failed` and re-raised, abandoning the rest of the loop. -/
def runAll (conn : Conn) (queries : List (String × String)) :
    Except String (List (String × Nat)) :=
  match queries with
  | [] => .ok []
  | (name, sql) :: rest =>
    match execute_and_report conn name sql with
    | .error e => .error ("Analysis failed: " ++ e)
    | .ok r =>
      match runAll conn rest with
      | .error e => .error e
      | .ok rs => .ok (r :: rs)

/-- `main` of `analyze_ecommerce.py`: on success the summary table
(`summarize_runs`) lists every executed query; on failure the run aborts
before any summary. -/
def analyze_main (conn : Conn) : Except String (List (String × Nat)) :=
  runAll conn query_battery

/-! Derived quantities and concrete runs used by the theorems below. -/

/-- Sum of the subtotals of the items whose `order_id` is `k`. -/
def subtotalsFor (k : Nat) (its : List OrderItem) : ℚ :=
  ((its.filter (fun it => it.order_id == k)).map OrderItem.subtotal).sum

/-- A small concrete pipeline run: customers. -/
def demoCustomersRun : Except String (List Customer × Nat) :=
  generate_customers 1 2

def demoCustomers : List Customer := (demoCustomersRun.toOption.getD ([], 0)).1

def demoCustomersRng : Nat := (demoCustomersRun.toOption.getD ([], 0)).2

/-- A small concrete pipeline run: products. -/
def demoProductsRun : Except String (List Product × Nat) :=
  generate_products demoCustomersRng 2

def demoProducts : List Product := (demoProductsRun.toOption.getD ([], 0)).1

def demoProductsRng : Nat := (demoProductsRun.toOption.getD ([], 0)).2

/-- A small concrete pipeline run: orders. -/
def demoOrdersRun : Except String (List Order × Nat) :=
  generate_orders demoProductsRng demoCustomers 3

def demoOrders : List Order := (demoOrdersRun.toOption.getD ([], 0)).1

def demoOrdersRng : Nat := (demoOrdersRun.toOption.getD ([], 0)).2

/-- A small concrete pipeline run: order items (5 items over 3 orders). -/
def demoItemsRun : Except String (List OrderItem × List Order × Nat) :=
  generate_order_items demoOrdersRng demoOrders demoProducts 5

def demoItems : List OrderItem := (demoItemsRun.toOption.getD ([], [], 0)).1

def demoOrdersUpd : List Order := (demoItemsRun.toOption.getD ([], [], 0)).2.1

def demoItemsRng : Nat := (demoItemsRun.toOption.getD ([], [], 0)).2.2

/-- A small concrete pipeline run: reviews. -/
def demoReviewsRun : Except String (List Review × Nat) :=
  generate_reviews demoItemsRng demoItems demoOrdersUpd 2

def demoReviews : List Review := (demoReviewsRun.toOption.getD ([], 0)).1

def demoReviewsRng : Nat := (demoReviewsRun.toOption.getD ([], 0)).2

/-- Five orders with ids 1…5, the scenario of the order-item target-count
claim (target 3 < 5 orders). -/
def c1Orders : List Order :=
  [{ order_id := 1, customer_id := 1, order_date := 3, total_amount := 0,
     status := "Pending", payment_method := "PayPal" },
   { order_id := 2, customer_id := 1, order_date := 4, total_amount := 0,
     status := "Pending", payment_method := "PayPal" },
   { order_id := 3, customer_id := 2, order_date := 5, total_amount := 0,
     status := "Shipped", payment_method := "Credit Card" },
   { order_id := 4, customer_id := 2, order_date := 6, total_amount := 0,
     status := "Delivered", payment_method := "Debit Card" },
   { order_id := 5, customer_id := 1, order_date := 7, total_amount := 0,
     status := "Pending", payment_method := "PayPal" }]

/-- A one-product catalog for the same scenario. -/
def c1Products : List Product :=
  [{ product_id := 1, product_name := "widget", category := "Books",
     description := "d", price := 10, stock_quantity := 3, supplier := "acme",
     created_date := 0 }]

/-- A connection on which the first query of the battery fails and every
other query succeeds. -/
def demoFailConn : Conn := fun sql =>
  if sql = "SELECT ... FROM customers JOIN orders JOIN order_items LIMIT 20"
  then .error "no such table: orders" else .ok 7

/-- A connection on which the third query of the battery fails and every
other query succeeds. -/
def demoSkipConn : Conn := fun sql =>
  if sql = "SELECT ... FROM orders JOIN customers JOIN order_items JOIN products LIMIT 100"
  then .error "no such table: orders" else .ok 7

/-- The first order of the concrete run (fallback is never used). -/
def demoOrder0 : Order :=
  demoOrders.getD 0
    { order_id := 0, customer_id := 0, order_date := 0, total_amount := 0,
      status := "", payment_method := "" }

/-- The first updated order of the concrete run (fallback is never used). -/
def demoOrderUpd0 : Order :=
  demoOrdersUpd.getD 0
    { order_id := 0, customer_id := 0, order_date := 0, total_amount := 0,
      status := "", payment_method := "" }

/-- The first review of the concrete run (fallback is never used). -/
def demoReview0 : Review :=
  demoReviews.getD 0
    { review_id := 0, product_id := 0, customer_id := 0, rating := 0,
      review_text := "", review_date := 0 }

/-! Basic lemmas about the random primitives. -/

theorem randNat_fst_bounds (s lo hi : Nat) (h : lo ≤ hi) :
    lo ≤ (randNat s lo hi).1 ∧ (randNat s lo hi).1 ≤ hi := by
  have hpos : 0 < hi + 1 - lo := by omega
  have hm := Nat.mod_lt (rngNext s) hpos
  unfold randNat
  dsimp only
  omega

theorem choose_mem {α : Type} {s : Nat} {xs : List α} {a : α} {r : Nat}
    (h : choose s xs = .ok (a, r)) : a ∈ xs := by
  cases xs with
  | nil => simp [choose] at h
  | cons x rest =>
      simp only [choose, Except.ok.injEq, Prod.mk.injEq] at h
      obtain ⟨h1, _⟩ := h
      rw [← h1]
      exact List.get_mem _ _ _

theorem date_between_bounds {s a b d r : Nat}
    (h : date_between_dates s a b = .ok (d, r)) : a ≤ d ∧ d ≤ b := by
  unfold date_between_dates at h
  split at h
  case isTrue hle =>
    injection h with h2
    have hb := randNat_fst_bounds s a b hle
    rw [h2] at hb
    exact hb
  case isFalse => simp at h

theorem date_const_ok (s : Nat) :
    date_between_dates s REGISTRATION_START DATA_END_DATE =
      .ok (randNat s REGISTRATION_START DATA_END_DATE) := by
  unfold date_between_dates
  rw [if_pos]
  decide

/-! Faker's unique email proxy. -/

theorem uniqueEmail_ok_not_mem {used : List String} {s fuel : Nat}
    {e : String} {r : Nat} (h : uniqueEmail used s fuel = .ok (e, r)) :
    e ∉ used := by
  induction fuel generalizing s with
  | zero => simp [uniqueEmail] at h
  | succ n ih =>
      unfold uniqueEmail at h
      split at h
      · exact ih h
      · next hni =>
          injection h with h2
          have he : (fakeEmail s).1 = e := congrArg Prod.fst h2
          rw [← he]
          exact hni

theorem uniqueEmail_error_exhausted {used : List String} {s fuel : Nat}
    {e : String} (h : uniqueEmail used s fuel = .error e) :
    e = "UniquenessException" := by
  induction fuel generalizing s with
  | zero =>
      unfold uniqueEmail at h
      injection h with h2
      exact h2.symm
  | succ n ih =>
      unfold uniqueEmail at h
      split at h
      · exact ih h
      · simp at h

/-! `generate_customers`: email uniqueness and error behaviour. -/

theorem generate_customers_go_ok {n : Nat} :
    ∀ {cid : Nat} {used : List String} {s : Nat} {cs : List Customer}
      {r : Nat}, generate_customers_go cid n used s = .ok (cs, r) →
      (∀ c ∈ cs, c.email ∉ used) ∧ (cs.map Customer.email).Nodup ∧
        cs.length = n := by
  induction n with
  | zero =>
      intro cid used s cs r h
      unfold generate_customers_go at h
      simp only [Except.ok.injEq, Prod.mk.injEq] at h
      obtain ⟨h1, _⟩ := h
      subst h1
      simp
  | succ n ih =>
      intro cid used s cs r h
      unfold generate_customers_go at h
      split at h
      · simp at h
      · split at h
        · simp at h
        · next em s4 hue =>
            split at h
            · simp at h
            · next rest s11 hrec =>
                simp only [Except.ok.injEq, Prod.mk.injEq] at h
                obtain ⟨h1, _⟩ := h
                subst h1
                obtain ⟨hnotin, hnodup, hlen⟩ := ih hrec
                have hem : em ∉ used := uniqueEmail_ok_not_mem hue
                refine ⟨?_, ?_, ?_⟩
                · intro c hc
                  cases hc with
                  | head => exact hem
                  | tail _ hc' =>
                      intro hmem
                      exact (hnotin c hc') (List.mem_cons_of_mem _ hmem)
                · simp only [List.map_cons, List.nodup_cons]
                  refine ⟨?_, hnodup⟩
                  intro hmem
                  obtain ⟨c, hc, hce⟩ := List.mem_map.mp hmem
                  exact (hnotin c hc) (by rw [hce]; exact List.mem_cons_self _ _)
                · simp [hlen]

theorem generate_customers_go_error {n : Nat} :
    ∀ {cid : Nat} {used : List String} {s : Nat} {e : String},
      generate_customers_go cid n used s = .error e →
      e = "UniquenessException" := by
  induction n with
  | zero =>
      intro cid used s e h
      unfold generate_customers_go at h
      simp at h
  | succ n ih =>
      intro cid used s e h
      unfold generate_customers_go at h
      split at h
      · next e' hd =>
          rw [date_const_ok] at hd
          simp at hd
      · split at h
        · next e' hue =>
            injection h with h2
            rw [← h2]
            exact uniqueEmail_error_exhausted hue
        · next em s4 hue =>
            split at h
            · next e' hrec =>
                injection h with h2
                rw [← h2]
                exact ih hrec
            · simp at h

/-- C8: every generated customer set, of any size, has pairwise-distinct
emails (and exactly the requested number of records); the only failure mode
of `generate_customers` is exhaustion of the unique-email source, surfaced
as a fatal `UniquenessException` rather than silently deduplicated or
clamped. -/
theorem customer_emails_unique (s n : Nat) :
    match generate_customers s n with
    | .ok (cs, _) => (cs.map Customer.email).Nodup ∧ cs.length = n
    | .error e => e = "UniquenessException" := by
  cases h : generate_customers s n with
  | ok p =>
      obtain ⟨cs, r⟩ := p
      exact ⟨(generate_customers_go_ok h).2.1, (generate_customers_go_ok h).2.2⟩
  | error e => exact generate_customers_go_error h

/-! `generate_orders`: temporal consistency and id layout. -/

theorem generate_orders_go_spec {customers : List Customer} {n : Nat} :
    ∀ {oid s : Nat} {os : List Order} {r : Nat},
      generate_orders_go customers oid n s = .ok (os, r) →
      os.map Order.order_id = List.range' oid n ∧
        ∀ o ∈ os, ∃ c ∈ customers,
          c.customer_id = o.customer_id ∧
            c.registration_date ≤ o.order_date ∧
            o.order_date ≤ DATA_END_DATE := by
  induction n with
  | zero =>
      intro oid s os r h
      unfold generate_orders_go at h
      simp only [Except.ok.injEq, Prod.mk.injEq] at h
      obtain ⟨h1, _⟩ := h
      subst h1
      simp
  | succ n ih =>
      intro oid s os r h
      unfold generate_orders_go at h
      split at h
      · exact absurd h (by simp)
      · next c s1 hc =>
          split at h
          · exact absurd h (by simp)
          · next d s2 hd =>
              split at h
              · exact absurd h (by simp)
              · next st s3 hst =>
                  split at h
                  · exact absurd h (by simp)
                  · next pm s4 hpm =>
                      split at h
                      · exact absurd h (by simp)
                      · next rest s5 hrec =>
                          simp only [Except.ok.injEq, Prod.mk.injEq] at h
                          obtain ⟨h1, _⟩ := h
                          subst h1
                          obtain ⟨hids, hrest⟩ := ih hrec
                          have hdate := date_between_bounds hd
                          constructor
                          · simp only [List.map_cons, hids]
                            rw [List.range'_succ]
                          · intro o ho
                            cases ho with
                            | head =>
                                exact ⟨c, choose_mem hc, rfl, hdate.1, hdate.2⟩
                            | tail _ ho' => exact hrest o ho'

/-- C4: every order produced by `generate_orders` references a customer
sampled from the supplied customer set, and its `order_date` lies between
that customer's `registration_date` and the dataset end date. -/
theorem orders_respect_registration_dates {s : Nat}
    {customers : List Customer} {count : Nat} {orders : List Order} {r : Nat}
    (h : generate_orders s customers count = .ok (orders, r)) :
    ∀ o ∈ orders, ∃ c ∈ customers,
      c.customer_id = o.customer_id ∧
        c.registration_date ≤ o.order_date ∧
        o.order_date ≤ DATA_END_DATE :=
  (generate_orders_go_spec h).2

/-! `generate_order_items`: totals accounting, coverage, frame. -/

theorem subtotalsFor_nil (k : Nat) : subtotalsFor k [] = 0 := rfl

theorem subtotalsFor_cons (k : Nat) (it : OrderItem) (its : List OrderItem) :
    subtotalsFor k (it :: its) =
      (if it.order_id = k then it.subtotal else 0) + subtotalsFor k its := by
  by_cases h : it.order_id = k
  · simp [subtotalsFor, List.filter_cons, h]
  · simp [subtotalsFor, List.filter_cons, beq_iff_eq, h]

theorem subtotalsFor_append (k : Nat) (a b : List OrderItem) :
    subtotalsFor k (a ++ b) = subtotalsFor k a + subtotalsFor k b := by
  simp [subtotalsFor, List.filter_append]

theorem build_item_spec {products : List Product} {rid oid : Nat}
    {t : Nat → ℚ} {s : Nat} {it : OrderItem} {t2 : Nat → ℚ} {s2 : Nat}
    (h : build_item products rid oid t s = .ok (it, t2, s2)) :
    it.order_id = oid ∧ it.order_item_id = rid ∧
      ∀ k, t2 k = if k = oid then t k + it.subtotal else t k := by
  unfold build_item at h
  split at h
  · simp at h
  · next pid s1 hch =>
      split at h
      · simp at h
      · next p hp =>
          simp only [Except.ok.injEq, Prod.mk.injEq] at h
          obtain ⟨h1, h2, _⟩ := h
          subst h1
          subst h2
          exact ⟨rfl, rfl, fun k => rfl⟩

theorem seed_items_spec {products : List Product} :
    ∀ {orders : List Order} {rid : Nat} {t : Nat → ℚ} {s : Nat}
      {its : List OrderItem} {t2 : Nat → ℚ} {rid2 s2 : Nat},
      seed_items products orders rid t s = .ok (its, t2, rid2, s2) →
      its.map OrderItem.order_id = orders.map Order.order_id ∧
        its.length = orders.length ∧
        ∀ k, t2 k = t k + subtotalsFor k its := by
  intro orders
  induction orders with
  | nil =>
      intro rid t s its t2 rid2 s2 h
      unfold seed_items at h
      simp only [Except.ok.injEq, Prod.mk.injEq] at h
      obtain ⟨h1, h2, _⟩ := h
      subst h1
      subst h2
      simp [subtotalsFor]
  | cons o rest ih =>
      intro rid t s its t2 rid2 s2 h
      unfold seed_items at h
      split at h
      · simp at h
      · next it t1 s1 hb =>
          split at h
          · simp at h
          · next its' t2' rid' s2' hrec =>
              simp only [Except.ok.injEq, Prod.mk.injEq] at h
              obtain ⟨h1, h2, _, _⟩ := h
              subst h1
              subst h2
              obtain ⟨hbo, _, hbt⟩ := build_item_spec hb
              obtain ⟨hmap, hlen, ht⟩ := ih hrec
              refine ⟨?_, ?_, ?_⟩
              · simp [hmap, hbo]
              · simp [hlen]
              · intro k
                rw [ht k, hbt k, subtotalsFor_cons]
                by_cases hk : k = o.order_id
                · rw [if_pos hk, if_pos (hbo.trans hk.symm)]
                  ring
                · rw [if_neg hk, if_neg (fun hc => hk (hc.symm.trans hbo))]
                  ring

theorem fill_items_spec {products : List Product} {order_ids : List Nat} :
    ∀ {n : Nat} {rid : Nat} {t : Nat → ℚ} {s : Nat} {its : List OrderItem}
      {t2 : Nat → ℚ} {rid2 s2 : Nat},
      fill_items products order_ids n rid t s = .ok (its, t2, rid2, s2) →
      its.length = n ∧ ∀ k, t2 k = t k + subtotalsFor k its := by
  intro n
  induction n with
  | zero =>
      intro rid t s its t2 rid2 s2 h
      unfold fill_items at h
      simp only [Except.ok.injEq, Prod.mk.injEq] at h
      obtain ⟨h1, h2, _⟩ := h
      subst h1
      subst h2
      simp [subtotalsFor]
  | succ n ih =>
      intro rid t s its t2 rid2 s2 h
      unfold fill_items at h
      split at h
      · simp at h
      · next oid s1 hch =>
          split at h
          · simp at h
          · next it t1 s2' hb =>
              split at h
              · simp at h
              · next its' t2' rid' s3' hrec =>
                  simp only [Except.ok.injEq, Prod.mk.injEq] at h
                  obtain ⟨h1, h2, _, _⟩ := h
                  subst h1
                  subst h2
                  obtain ⟨hbo, _, hbt⟩ := build_item_spec hb
                  obtain ⟨hlen, ht⟩ := ih hrec
                  refine ⟨by simp [hlen], ?_⟩
                  intro k
                  rw [ht k, hbt k, subtotalsFor_cons]
                  by_cases hk : k = oid
                  · rw [if_pos hk, if_pos (hbo.trans hk.symm)]
                    ring
                  · rw [if_neg hk, if_neg (fun hc => hk (hc.symm.trans hbo))]
                    ring

theorem generate_order_items_parts {s : Nat} {orders : List Order}
    {products : List Product} {count : Nat} {its : List OrderItem}
    {orders2 : List Order} {s2 : Nat}
    (h : generate_order_items s orders products count = .ok (its, orders2, s2)) :
    ∃ (seedIts fillIts : List OrderItem) (t2 : Nat → ℚ),
      its = seedIts ++ fillIts ∧
      seedIts.map OrderItem.order_id = orders.map Order.order_id ∧
      seedIts.length = orders.length ∧
      fillIts.length = count - orders.length ∧
      (∀ k, t2 k = subtotalsFor k its) ∧
      orders2 = orders.map (fun o =>
        { o with total_amount := round2 (t2 o.order_id) }) := by
  unfold generate_order_items at h
  split at h
  · simp at h
  · next seedIts t1 rid s1 hseed =>
      split at h
      · simp at h
      · next fillIts t2 rid' s2' hfill =>
          simp only [Except.ok.injEq, Prod.mk.injEq] at h
          obtain ⟨h1, h2, _⟩ := h
          subst h1
          subst h2
          obtain ⟨hmap, hlen, ht1⟩ := seed_items_spec hseed
          obtain ⟨hflen, ht2⟩ := fill_items_spec hfill
          refine ⟨seedIts, fillIts, t2, rfl, hmap, hlen, hflen, ?_, rfl⟩
          intro k
          rw [ht2 k, ht1 k, subtotalsFor_append]
          ring

/-- C2: after `generate_orders` followed by `generate_order_items`, each
order's final `total_amount` is exactly `round2` of the sum of the
subtotals of the items whose `order_id` references it (written back once, by
the final statement of `generate_order_items`, after both item loops have
finished; an order that received no extra items keeps the subtotal of its
single seed item). -/
theorem order_totals_match_item_subtotals {s0 : Nat}
    {customers : List Customer} {n : Nat} {orders : List Order} {s : Nat}
    {products : List Product} {count : Nat} {its : List OrderItem}
    {orders2 : List Order} {s2 : Nat}
    (_h0 : generate_orders s0 customers n = .ok (orders, s))
    (h : generate_order_items s orders products count = .ok (its, orders2, s2)) :
    ∀ o2 ∈ orders2, o2.total_amount = round2 (subtotalsFor o2.order_id its) := by
  obtain ⟨seedIts, fillIts, t2, hits, _, _, _, ht, ho2⟩ :=
    generate_order_items_parts h
  subst ho2
  intro o2 ho
  obtain ⟨o, _, rfl⟩ := List.mem_map.mp ho
  exact congrArg round2 (ht o.order_id)

/-- C10: `generate_order_items` updates the caller's orders in place but
touches only `total_amount`: the row count, the row order, and every other
column (`order_id`, `customer_id`, `order_date`, `status`,
`payment_method`) are unchanged. -/
theorem generate_order_items_frame {s : Nat} {orders : List Order}
    {products : List Product} {count : Nat} {its : List OrderItem}
    {orders2 : List Order} {s2 : Nat}
    (h : generate_order_items s orders products count = .ok (its, orders2, s2)) :
    orders2.length = orders.length ∧
      orders2.map Order.order_id = orders.map Order.order_id ∧
      orders2.map Order.customer_id = orders.map Order.customer_id ∧
      orders2.map Order.order_date = orders.map Order.order_date ∧
      orders2.map Order.status = orders.map Order.status ∧
      orders2.map Order.payment_method = orders.map Order.payment_method := by
  obtain ⟨seedIts, fillIts, t2, _, _, _, _, _, ho2⟩ :=
    generate_order_items_parts h
  subst ho2
  refine ⟨by simp, ?_, ?_, ?_, ?_, ?_⟩ <;> (rw [List.map_map]; rfl)

/-- C3: with target `count` at least the number of orders, a successful
`generate_order_items` run yields `count` items; the first `orders.length` of
them are exactly one seed item per order, in ascending order-id order
(`order_id`s `1, …, N` for orders produced by `generate_orders`), and every
order id is covered by at least one item. -/
theorem order_items_coverage_and_seed_order {s0 : Nat}
    {customers : List Customer} {n : Nat} {orders : List Order} {s1 : Nat}
    {s : Nat} {products : List Product} {count : Nat} {its : List OrderItem}
    {orders2 : List Order} {s2 : Nat}
    (h0 : generate_orders s0 customers n = .ok (orders, s1))
    (hcnt : orders.length ≤ count)
    (h : generate_order_items s orders products count = .ok (its, orders2, s2)) :
    (its.take orders.length).map OrderItem.order_id =
        List.range' 1 orders.length ∧
      (∀ o ∈ orders, ∃ it ∈ its, it.order_id = o.order_id) ∧
      its.length = count := by
  obtain ⟨seedIts, fillIts, t2, hits, hmap, hlen, hflen, _, _⟩ :=
    generate_order_items_parts h
  have hids := (generate_orders_go_spec h0).1
  have hon : orders.length = n := by
    have := congrArg List.length hids
    simpa using this
  subst hits
  refine ⟨?_, ?_, ?_⟩
  · rw [← hlen, List.take_left, hmap, hids, hlen, hon]
  · intro o ho
    have hmem : o.order_id ∈ seedIts.map OrderItem.order_id := by
      rw [hmap]
      exact List.mem_map.mpr ⟨o, ho, rfl⟩
    obtain ⟨it, hit, hid⟩ := List.mem_map.mp hmem
    exact ⟨it, List.mem_append_left _ hit, hid⟩
  · rw [List.length_append, hlen, hflen]
    omega

/-! The order-item target-count "configuration error": the code has no such
check, so a target below the order count cannot fail for that reason. -/

theorem build_item_ne_error {products : List Product} (hp : products ≠ [])
    (rid oid : Nat) (t : Nat → ℚ) (s : Nat) (e : String) :
    build_item products rid oid t s ≠ .error e := by
  intro h
  unfold build_item at h
  split at h
  · next e' hch =>
      cases hps : products.map Product.product_id with
      | nil => exact hp (List.map_eq_nil_iff.mp hps)
      | cons x xs =>
          rw [hps] at hch
          simp [choose] at hch
  · next pid s1 hch =>
      split at h
      · next hf =>
          obtain ⟨q, hq, hqe⟩ := List.mem_map.mp (choose_mem hch)
          have := List.find?_eq_none.mp hf q hq
          simp [hqe] at this
      · simp at h

theorem seed_items_ne_error {products : List Product} (hp : products ≠ []) :
    ∀ {orders : List Order} {rid : Nat} {t : Nat → ℚ} {s : Nat} {e : String},
      seed_items products orders rid t s ≠ .error e := by
  intro orders
  induction orders with
  | nil =>
      intro rid t s e h
      unfold seed_items at h
      simp at h
  | cons o rest ih =>
      intro rid t s e h
      unfold seed_items at h
      split at h
      · next e' hb => exact build_item_ne_error hp _ _ _ _ _ hb
      · next it t1 s1 hb =>
          split at h
          · next e' hrec => exact ih hrec
          · simp at h

/-- C1 counterexample: with 5 orders and an order-item target count of 3 —
strictly below the number of orders — `generate_order_items` does NOT raise a
configuration error: it succeeds and returns 5 items (one seed item per
order), refuting the claim that this input fails fast with zero output. -/
theorem generate_order_items_small_target_no_error :
    (generate_order_items 7 c1Orders c1Products 3).toOption.map
        (fun x => x.1.length) = some 5 ∧ c1Orders.length = 5 := by
  exact ⟨rfl, rfl⟩

/-- C1 (amended): a target count strictly below the number of orders is not
treated as an error by `generate_order_items`; the seed loop still emits one
item per order, so the call succeeds (for a nonempty product catalog) and
returns `orders.length` items, exceeding the requested target. -/
theorem generate_order_items_target_below_orders_seeds_all (s : Nat)
    (orders : List Order) (products : List Product) (count : Nat)
    (hcnt : count ≤ orders.length) (hp : products ≠ []) :
    (generate_order_items s orders products count).toOption.map
        (fun x => x.1.length) = some orders.length := by
  unfold generate_order_items
  cases hs : seed_items products orders 1 (fun _ => 0) s with
  | error e => exact absurd hs (seed_items_ne_error hp)
  | ok quad =>
      obtain ⟨its, t1, rid, s1⟩ := quad
      have h0 : count - orders.length = 0 := by omega
      rw [h0]
      obtain ⟨_, hlen, _⟩ := seed_items_spec hs
      simp [fill_items, Except.toOption, hlen]

/-- C1 witness: the amended statement evaluated on the concrete 5-order,
target-3 scenario. -/
theorem generate_order_items_target_below_orders_seeds_all_witness :
    (generate_order_items 7 c1Orders c1Products 3).toOption.map
        (fun x => x.1.length) = some c1Orders.length :=
  generate_order_items_target_below_orders_seeds_all 7 c1Orders c1Products 3
    (by decide) (by decide)

/-! `generate_reviews`: every review comes from a purchased item. -/

theorem sample_with_replacement_subset {items : List OrderItem} :
    ∀ {n s : Nat} {sampled : List OrderItem} {r : Nat},
      sample_with_replacement items n s = .ok (sampled, r) →
      ∀ x ∈ sampled, x ∈ items := by
  intro n
  induction n with
  | zero =>
      intro s sampled r h
      unfold sample_with_replacement at h
      simp only [Except.ok.injEq, Prod.mk.injEq] at h
      obtain ⟨h1, _⟩ := h
      subst h1
      simp
  | succ n ih =>
      intro s sampled r h
      unfold sample_with_replacement at h
      split at h
      · simp at h
      · next it s1 hch =>
          split at h
          · simp at h
          · next rest s2 hrec =>
              simp only [Except.ok.injEq, Prod.mk.injEq] at h
              obtain ⟨h1, _⟩ := h
              subst h1
              intro x hx
              cases hx with
              | head => exact choose_mem hch
              | tail _ hx' => exact ih hrec x hx'

theorem reviews_go_spec {orders : List Order} :
    ∀ {sampled : List OrderItem} {rid s : Nat} {rvs : List Review} {r : Nat},
      reviews_go orders sampled rid s = .ok (rvs, r) →
      ∀ rv ∈ rvs, ∃ it ∈ sampled, ∃ o ∈ orders,
        orders.find? (fun x => x.order_id == it.order_id) = some o ∧
        o.order_id = it.order_id ∧
        rv.product_id = it.product_id ∧ rv.customer_id = o.customer_id ∧
        o.order_date ≤ rv.review_date := by
  intro sampled
  induction sampled with
  | nil =>
      intro rid s rvs r h
      unfold reviews_go at h
      simp only [Except.ok.injEq, Prod.mk.injEq] at h
      obtain ⟨h1, _⟩ := h
      subst h1
      simp
  | cons it rest ih =>
      intro rid s rvs r h
      unfold reviews_go at h
      split at h
      · simp at h
      · next o hf =>
          split at h
          · simp at h
          · next rd s1 hd =>
              split at h
              · simp at h
              · next rvs' s3 hrec =>
                  simp only [Except.ok.injEq, Prod.mk.injEq] at h
                  obtain ⟨h1, _⟩ := h
                  subst h1
                  intro rv hrv
                  cases hrv with
                  | head =>
                      refine ⟨it, List.mem_cons_self _ _, o,
                        List.mem_of_find?_eq_some hf, hf, ?_, rfl, rfl,
                        (date_between_bounds hd).1⟩
                      have := List.find?_some hf
                      simpa using this
                  | tail _ hrv' =>
                      obtain ⟨it', hit', rest'⟩ := ih hrec rv hrv'
                      exact ⟨it', List.mem_cons_of_mem _ hit', rest'⟩

/-- C5: every review produced by `generate_reviews` is derived from a sampled
order item and its order: `product_id` equals the item's product,
`customer_id` equals the customer of the item's order, and `review_date` is
at or after that order's `order_date` — every review corresponds to an
actual purchased (order, product) pair by construction. -/
theorem reviews_linked_to_purchases {s : Nat} {items : List OrderItem}
    {orders : List Order} {count : Nat} {rvs : List Review} {r : Nat}
    (h : generate_reviews s items orders count = .ok (rvs, r)) :
    ∀ rv ∈ rvs, ∃ it ∈ items, ∃ o ∈ orders,
      orders.find? (fun x => x.order_id == it.order_id) = some o ∧
      o.order_id = it.order_id ∧
      rv.product_id = it.product_id ∧ rv.customer_id = o.customer_id ∧
      o.order_date ≤ rv.review_date := by
  unfold generate_reviews at h
  split at h
  · simp at h
  · next sampled r' hsamp =>
      intro rv hrv
      obtain ⟨it, hit, rest⟩ := reviews_go_spec h rv hrv
      exact ⟨it, sample_with_replacement_subset hsamp it hit, rest⟩

/-! The analysis runner: a failing query aborts the whole run. -/

theorem execute_ok_exists {conn : Conn} {name sql : String}
    (h : (execute_and_report conn name sql).isOk = true) :
    ∃ r, execute_and_report conn name sql = .ok r := by
  cases he : execute_and_report conn name sql with
  | ok r => exact ⟨r, rfl⟩
  | error e =>
      rw [he] at h
      simp [Except.isOk, Except.toBool] at h

/-- C6 counterexample: on a connection where the first battery query fails
(and every other query would succeed — witnessed by the second conjunct),
`main` of `analyze_ecommerce.py` aborts the entire run with a wrapped
`Analysis failed` error instead of skipping the failing query, running the
rest, and summarising: the claimed per-query independence does not hold. -/
theorem analysis_aborts_on_first_query_failure_cex :
    analyze_main demoFailConn =
      .error
        "Analysis failed: Query top_customers_by_revenue failed: no such table: orders" ∧
      (execute_and_report demoFailConn "product_performance_with_reviews"
          "SELECT ... FROM products LEFT JOIN order_items LEFT JOIN reviews").isOk =
        true :=
  ⟨rfl, rfl⟩

/-- C6 (amended): query runs are not independent: when a query of the battery
fails (all queries before it succeeding), its error is wrapped as
`Analysis failed` and re-raised, aborting the run; the queries after the
failing one are never executed (the result does not depend on them) and no
summary is produced. -/
theorem analysis_aborts_on_query_failure (conn : Conn)
    (pre : List (String × String)) (name sql : String)
    (post : List (String × String)) (e : String)
    (hpre : ∀ q ∈ pre, (execute_and_report conn q.1 q.2).isOk = true)
    (hfail : execute_and_report conn name sql = .error e) :
    runAll conn (pre ++ (name, sql) :: post) =
      .error ("Analysis failed: " ++ e) := by
  induction pre with
  | nil =>
      rw [List.nil_append]
      unfold runAll
      rw [hfail]
  | cons q pre ih =>
      obtain ⟨qn, qs⟩ := q
      obtain ⟨r, hr⟩ := execute_ok_exists (hpre (qn, qs) (List.mem_cons_self _ _))
      have ih' := ih (fun q' hq' => hpre q' (List.mem_cons_of_mem _ hq'))
      rw [List.cons_append]
      unfold runAll
      simp only [hr, ih']

/-- C6 witness: the amended statement on a concrete connection where the
third query of the battery fails after the first two succeed. -/
theorem analysis_aborts_on_query_failure_witness :
    runAll demoSkipConn
        ([("top_customers_by_revenue",
           "SELECT ... FROM customers JOIN orders JOIN order_items LIMIT 20"),
          ("product_performance_with_reviews",
           "SELECT ... FROM products LEFT JOIN order_items LEFT JOIN reviews")] ++
          ("complete_order_details",
           "SELECT ... FROM orders JOIN customers JOIN order_items JOIN products LIMIT 100") ::
          [("category_sales_summary",
            "SELECT ... FROM products JOIN order_items GROUP BY category"),
           ("customer_engagement_metrics",
            "SELECT ... FROM customers JOIN orders JOIN order_items LEFT JOIN reviews LIMIT 50")]) =
      .error ("Analysis failed: " ++
        "Query complete_order_details failed: no such table: orders") :=
  analysis_aborts_on_query_failure demoSkipConn _ "complete_order_details"
    "SELECT ... FROM orders JOIN customers JOIN order_items JOIN products LIMIT 100"
    _ "Query complete_order_details failed: no such table: orders"
    (by decide) (by rfl)

/-! The load stage: all-or-nothing transaction. -/

theorem insertRows_ok {α : Type} (check : List α → α → Bool) :
    ∀ {rows tbl res : List α}, insertRows check tbl rows = .ok res →
      res = tbl ++ rows := by
  intro rows
  induction rows with
  | nil =>
      intro tbl res h
      unfold insertRows at h
      injection h with h1
      simp [← h1]
  | cons r' rest ih =>
      intro tbl res h
      unfold insertRows at h
      split at h
      · have := ih h
        rw [this]
        simp
      · simp at h

theorem insert_data_tx_ok {db d db2 : Database}
    (h : insert_data_tx db d = .ok db2) :
    db2.customers = db.customers ++ d.customers ∧
      db2.products = db.products ++ d.products ∧
      db2.orders = db.orders ++ d.orders ∧
      db2.order_items = db.order_items ++ d.order_items ∧
      db2.reviews = db.reviews ++ d.reviews := by
  unfold insert_data_tx at h
  split at h
  · simp at h
  · next cs h1 =>
      split at h
      · simp at h
      · next ps h2 =>
          split at h
          · simp at h
          · next os h3 =>
              split at h
              · simp at h
              · next its h4 =>
                  split at h
                  · simp at h
                  · next rvs h5 =>
                      injection h with h6
                      subst h6
                      exact ⟨insertRows_ok _ h1, insertRows_ok _ h2,
                        insertRows_ok _ h3, insertRows_ok _ h4,
                        insertRows_ok _ h5⟩

/-- C7: `insert_data` loads all five entity collections inside one
transaction: on any insertion failure (constraint violation) the error is
wrapped as `Insertion failed` and the committed state is exactly the
pre-call database — no rows from the run are committed in any of the five
tables; on success all five collections are appended in full. -/
theorem insert_data_atomic (db d : Database) :
    match insert_data db d with
    | (.error _, db2) => db2 = db
    | (.ok _, db2) =>
        db2.customers = db.customers ++ d.customers ∧
        db2.products = db.products ++ d.products ∧
        db2.orders = db.orders ++ d.orders ∧
        db2.order_items = db.order_items ++ d.order_items ∧
        db2.reviews = db.reviews ++ d.reviews := by
  unfold insert_data
  cases h : insert_data_tx db d with
  | error e => exact rfl
  | ok db2 =>
      have hdb2 := insert_data_tx_ok h
      obtain ⟨hc, hp, ho, hi, hr⟩ := hdb2
      exact ⟨hc, hp, ho, hi, hr⟩

/-! Determinism of the generation pipeline. -/

/-- C9: the generation pipeline is deterministic in the seed: two runs with
the same seed and the same five target counts produce identical customer,
product, order, order-item and review entity sets (every random source in
the embedding is derived from the seed; the review sampler additionally uses
its own fixed `random_state = 42`). -/
theorem generation_deterministic_in_seed (s1 s2 nc np no ni nr : Nat)
    (h : s1 = s2) :
    generateAll s1 nc np no ni nr = generateAll s2 nc np no ni nr := by
  rw [h]

/-- C9 witness: the spec's example scenario — 10 customers, 5 products,
20 orders, 50 order items, 30 reviews, seed 42. -/
theorem generation_deterministic_in_seed_witness :
    generateAll 42 10 5 20 50 30 = generateAll 42 10 5 20 50 30 :=
  generation_deterministic_in_seed 42 42 10 5 20 50 30 rfl

/-! Witnesses instantiating the conditional theorems on the concrete demo
pipeline run. -/

theorem getD_zero_mem {α : Type} (l : List α) (d : α) (h : 0 < l.length) :
    l.getD 0 d ∈ l := by
  cases l with
  | nil => simp at h
  | cons x xs => exact List.mem_cons_self _ _

/-- C4 witness: the order/customer date constraint for the first order of a
concrete run. -/
theorem orders_respect_registration_dates_witness :
    ∃ c ∈ demoCustomers,
      c.customer_id = demoOrder0.customer_id ∧
        c.registration_date ≤ demoOrder0.order_date ∧
        demoOrder0.order_date ≤ DATA_END_DATE :=
  @orders_respect_registration_dates demoProductsRng demoCustomers 3
    demoOrders demoOrdersRng (by rfl) demoOrder0
    (getD_zero_mem demoOrders _ (by decide))

/-- C2 witness: the totals law for the first updated order of a concrete
run. -/
theorem order_totals_match_item_subtotals_witness :
    demoOrderUpd0.total_amount =
      round2 (subtotalsFor demoOrderUpd0.order_id demoItems) :=
  @order_totals_match_item_subtotals demoProductsRng demoCustomers 3
    demoOrders demoOrdersRng demoProducts 5 demoItems demoOrdersUpd
    demoItemsRng (by rfl) (by rfl) demoOrderUpd0
    (getD_zero_mem demoOrdersUpd _ (by decide))

/-- C3 witness: coverage and seed ordering on a concrete run. -/
theorem order_items_coverage_and_seed_order_witness :
    (demoItems.take demoOrders.length).map OrderItem.order_id =
        List.range' 1 demoOrders.length ∧
      (∀ o ∈ demoOrders, ∃ it ∈ demoItems, it.order_id = o.order_id) ∧
      demoItems.length = 5 :=
  @order_items_coverage_and_seed_order demoProductsRng demoCustomers 3
    demoOrders demoOrdersRng demoOrdersRng demoProducts 5 demoItems
    demoOrdersUpd demoItemsRng (by rfl) (by decide) (by rfl)

/-- C10 witness: the frame property on a concrete run. -/
theorem generate_order_items_frame_witness :
    demoOrdersUpd.length = demoOrders.length ∧
      demoOrdersUpd.map Order.order_id = demoOrders.map Order.order_id ∧
      demoOrdersUpd.map Order.customer_id = demoOrders.map Order.customer_id ∧
      demoOrdersUpd.map Order.order_date = demoOrders.map Order.order_date ∧
      demoOrdersUpd.map Order.status = demoOrders.map Order.status ∧
      demoOrdersUpd.map Order.payment_method =
        demoOrders.map Order.payment_method :=
  @generate_order_items_frame demoOrdersRng demoOrders demoProducts 5
    demoItems demoOrdersUpd demoItemsRng (by rfl)

/-- C5 witness: review linkage for the first review of a concrete run. -/
theorem reviews_linked_to_purchases_witness :
    ∃ it ∈ demoItems, ∃ o ∈ demoOrdersUpd,
      demoOrdersUpd.find? (fun x => x.order_id == it.order_id) = some o ∧
      o.order_id = it.order_id ∧
      demoReview0.product_id = it.product_id ∧
      demoReview0.customer_id = o.customer_id ∧
      o.order_date ≤ demoReview0.review_date :=
  @reviews_linked_to_purchases demoItemsRng demoItems demoOrdersUpd 2
    demoReviews demoReviewsRng (by rfl) demoReview0
    (getD_zero_mem demoReviews _ (by decide))

end ECommerce
